import Mathlib

/-!
Verification of the task classification, model/cost selection and report
assembly core of the sei-devrel-agent repository.

The embedding below translates, function by function:
  * `src/types/index.ts`        — the data model (DebugTask, CostEstimate,
                                  Citation, AnthropicMessage, DebugReport,
                                  ModelType);
  * `src/core/model-selector.ts`— ModelSelector.selectModel, estimateCost,
                                  calculateTokenCost;
  * `src/core/anthropic-client.ts` (lines 645–728) —
                                  SeiDebugAgent.classifyIssue,
                                  formatDebugReport, extractRootCause,
                                  extractSuggestions.

JavaScript numbers are modelled as exact rationals (ℚ); JS strings as
Lean `String` / `List Char`.  The JS regular expressions used by the code
are modelled as explicit backtracking matchers over `List Char`,
reproducing leftmost-match and greedy-quantifier semantics.
-/

/-- TaskType models `DebugTask["type"]`:
`'transaction' | 'contract' | 'gas' | 'parallel' | 'general'`. -/
inductive TaskType
  | transaction
  | contract
  | gas
  | parallel
  | general
deriving DecidableEq, Repr, BEq

/-- Complexity models `DebugTask["complexity"]`: `'high' | 'medium' | 'low'`. -/
inductive Complexity
  | high
  | medium
  | low
deriving DecidableEq, Repr, BEq

/-- DebugTask models the `DebugTaskSchema` zod object of `src/types/index.ts`.
Optional JS fields become `Option`; `z.number()` becomes ℚ (exact JS number). -/
structure DebugTask where
  type : TaskType
  complexity : Complexity
  data : String
  userContext : Option String := none
  requiresDeepAnalysis : Bool := false
  requiresCodeExecution : Bool := false
  isSimpleQuery : Bool := false
  isStatusCheck : Bool := false
  estimatedSearches : Option ℚ := none
  estimatedTokens : Option ℚ := none
deriving DecidableEq, Repr

/-- CostEstimate models `CostEstimateSchema` of `src/types/index.ts`. -/
structure CostEstimate where
  searchCost : ℚ
  tokenCost : ℚ
  total : ℚ
deriving DecidableEq, Repr

/-- Citation models the `Citation` interface of `src/types/index.ts`. -/
structure Citation where
  url : String
  title : String
  cited_text : Option String := none
deriving DecidableEq, Repr

/-- ContentBlock models one element of `AnthropicMessage.content`:
`{ type: string; text?: string; citations?: Citation[] | null }`. -/
structure ContentBlock where
  type : String
  text : Option String := none
  citations : Option (List Citation) := none
deriving DecidableEq, Repr

/-- AnthropicMessage models the `AnthropicMessage` interface of
`src/types/index.ts` (the `codeOutput` payload is irrelevant to the logic
verified here and is carried as an opaque optional string list). -/
structure AnthropicMessage where
  content : List ContentBlock
  model : String
  server_tool_use : Option (List String) := none
  citations : Option (List Citation) := none
deriving DecidableEq, Repr

/-- DebugReport models the `DebugReport` interface of `src/types/index.ts`. -/
structure DebugReport where
  analysis : List ContentBlock
  sources : List Citation
  model : String
  toolsUsed : List String
  citations : List Citation
  rootCause : Option String := none
  suggestions : Option (List String) := none
deriving DecidableEq, Repr

/-- ModelType.OPUS_4 constant of `src/types/index.ts`. -/
def ModelType.OPUS_4 : String := "claude-opus-4-20250514"

/-- ModelType.SONNET_4 constant of `src/types/index.ts`. -/
def ModelType.SONNET_4 : String := "claude-sonnet-4-20250514"

/-- selectModel models `ModelSelector.selectModel` of
`src/core/model-selector.ts` lines 8–24 (logging omitted: it does not
affect the returned value). -/
def selectModel (task : DebugTask) : String :=
  if task.requiresDeepAnalysis || task.requiresCodeExecution
      || (task.complexity == Complexity.high) then
    ModelType.OPUS_4
  else if task.isSimpleQuery || task.isStatusCheck
      || (task.complexity == Complexity.low) then
    ModelType.SONNET_4
  else
    ModelType.SONNET_4

/-- jsNumOr models the JavaScript expression `x || d` for an optional
number `x`: JS `||` returns the fallback on any falsy value, and the only
falsy (non-NaN) number is `0`. -/
def jsNumOr (x : Option ℚ) (d : ℚ) : ℚ :=
  match x with
  | none => d
  | some v => if v = 0 then d else v

/-- calculateTokenCost models `ModelSelector.calculateTokenCost` of
`src/core/model-selector.ts` lines 41–45: rate `0.075` for Opus, `0.015`
otherwise, applied per thousand tokens. -/
def calculateTokenCost (tokens : ℚ) (model : String) : ℚ :=
  let costPerKToken : ℚ := if model = ModelType.OPUS_4 then 75/1000 else 15/1000
  (tokens / 1000) * costPerKToken

/-- estimateCost models `ModelSelector.estimateCost` of
`src/core/model-selector.ts` lines 26–39:
`searches = task.estimatedSearches || 0`, `tokens = task.estimatedTokens || 1000`
(JS `||`, hence falsy-0 falls back), `searchCost = searches * 0.01`,
`total = searchCost + tokenCost`. -/
def estimateCost (task : DebugTask) : CostEstimate :=
  let searches := jsNumOr task.estimatedSearches 0
  let tokens := jsNumOr task.estimatedTokens 1000
  let model := selectModel task
  let searchCost := searches * (1/100)
  let tokenCost := calculateTokenCost tokens model
  { searchCost := searchCost
    tokenCost := tokenCost
    total := searchCost + tokenCost }

/-- isHexDigit models the regex character class `[a-fA-F0-9]`. -/
def isHexDigit (c : Char) : Bool :=
  ('0' ≤ c && c ≤ '9') || ('a' ≤ c && c ≤ 'f') || ('A' ≤ c && c ≤ 'F')

/-- matchHashAt models an anchored attempt of `/0x[a-fA-F0-9]{64}/` at the
head of the character list: literal `0x` followed by at least 64 hex
digits. -/
def matchHashAt : List Char → Bool
  | c1 :: c2 :: rest =>
      c1 == '0' && c2 == 'x'
        && (rest.take 64).length == 64 && (rest.take 64).all isHexDigit
  | _ => false

/-- hasTxHash models `/0x[a-fA-F0-9]{64}/.test(issue)`: the unanchored JS
regex test succeeds iff an anchored match succeeds at some position. -/
def hasTxHash : List Char → Bool
  | [] => false
  | c :: cs => matchHashAt (c :: cs) || hasTxHash cs

/-- containsSub models JavaScript `text.includes(pat)` over character
lists: `pat` occurs as a contiguous substring. -/
def containsSub (pat : List Char) : List Char → Bool
  | [] => pat.isEmpty
  | c :: cs => pat.isPrefixOf (c :: cs) || containsSub pat cs

/-- lowerChars models `issue.toLowerCase()` (ASCII-relevant part of the
Unicode simple lowercase mapping used by JS). -/
def lowerChars (s : List Char) : List Char :=
  s.map Char.toLower

/-- classifyIssue models `SeiDebugAgent.classifyIssue` of
`src/core/anthropic-client.ts` lines 645–678, field by field.  Note the
hash test runs on the raw issue while keyword tests run on the lowercased
issue, exactly as in the source. -/
def classifyIssue (issue : String) (userContext : Option String) : DebugTask :=
  let lowerIssue := lowerChars issue.data
  let hasTransactionHash := hasTxHash issue.data
  let type : TaskType :=
    if hasTransactionHash then TaskType.transaction
    else if containsSub "gas".data lowerIssue then TaskType.gas
    else if containsSub "parallel".data lowerIssue
        || containsSub "state".data lowerIssue then TaskType.parallel
    else if containsSub "contract".data lowerIssue then TaskType.contract
    else TaskType.general
  let complexity : Complexity :=
    if containsSub "revert".data lowerIssue || containsSub "failed".data lowerIssue
        || containsSub "error".data lowerIssue then Complexity.high
    else if containsSub "how".data lowerIssue || containsSub "what".data lowerIssue
        || containsSub "status".data lowerIssue then Complexity.low
    else Complexity.medium
  { type := type
    complexity := complexity
    data := issue
    userContext := userContext
    requiresDeepAnalysis := (complexity == Complexity.high) || (type == TaskType.parallel)
    requiresCodeExecution := hasTransactionHash || (type == TaskType.gas)
      || containsSub "analyze".data lowerIssue
    isSimpleQuery := (complexity == Complexity.low) && !hasTransactionHash
    isStatusCheck := containsSub "status".data lowerIssue
      || containsSub "check".data lowerIssue
    estimatedSearches := some (if hasTransactionHash then 3 else 2)
    estimatedTokens := some (if complexity == Complexity.high then 3000 else 1500) }

/-- isJsWhitespace models the JS regex class `\s` (ECMAScript WhiteSpace
and LineTerminator code points). -/
def isJsWhitespace (c : Char) : Bool :=
  c == ' ' || c == '\t' || c == '\n' || c == '\r'
    || c == '\x0b' || c == '\x0c'
    || c == '\u00a0' || c == '\u1680'
    || ('\u2000' ≤ c && c ≤ '\u200a')
    || c == '\u2028' || c == '\u2029' || c == '\u202f'
    || c == '\u205f' || c == '\u3000' || c == '\ufeff'

/-- isSepChar models the regex class `[:\s]` of the root-cause pattern. -/
def isSepChar (c : Char) : Bool :=
  c == ':' || isJsWhitespace c

/-- matchDotTail models an anchored attempt of `([^.]+\.)` — greedy run of
non-period characters followed by a literal period; since the run cannot
contain the period, maximal-munch needs no further backtracking. Returns
the captured text. -/
def matchDotTail (cs : List Char) : Option (List Char) :=
  let run := cs.takeWhile (fun c => c != '.')
  if run.isEmpty then none
  else
    match cs.drop run.length with
    | '.' :: _ => some (run ++ ['.'])
    | _ => none

/-- sepStarDotTail models an anchored attempt of `[:\s]*([^.]+\.)` with
greedy `[:\s]*`: prefer consuming another separator, fall back to
starting the capture group here. Returns the captured text. -/
def sepStarDotTail : List Char → Option (List Char)
  | [] => none
  | c :: cs =>
    if isSepChar c then
      match sepStarDotTail cs with
      | some r => some r
      | none => matchDotTail (c :: cs)
    else matchDotTail (c :: cs)

/-- lowerPrefixOf matches a lowercase literal pattern case-insensitively
against the head of the input (the `/i` flag) and returns the remainder. -/
def lowerPrefixOf : List Char → List Char → Option (List Char)
  | [], rest => some rest
  | _ :: _, [] => none
  | p :: ps, c :: cs => if c.toLower == p then lowerPrefixOf ps cs else none

/-- matchRootCauseAt models an anchored attempt of
`/root cause[:\s]+([^.]+\.)/i`: the literal, then at least one separator,
then the capture group. Returns the capture (group 1). -/
def matchRootCauseAt (cs : List Char) : Option (List Char) :=
  match lowerPrefixOf "root cause".data cs with
  | none => none
  | some rest =>
    match rest with
    | [] => none
    | c :: rest' => if isSepChar c then sepStarDotTail rest' else none

/-- firstRootCauseMatch models the unanchored JS `String.match`: try the
anchored match at each position from the left, returning the first
success (its capture group 1). -/
def firstRootCauseMatch : List Char → Option (List Char)
  | [] => none
  | c :: cs =>
    match matchRootCauseAt (c :: cs) with
    | some r => some r
    | none => firstRootCauseMatch cs

/-- textOfContent models the shared preamble of both extractors:
`content.filter(c => c.type === "text").map(c => c.text).join(" ")`
(JS `join` renders `undefined` entries as the empty string). -/
def textOfContent (content : List ContentBlock) : String :=
  String.intercalate " "
    (((content.filter (fun c => c.type == "text")).map (fun c => c.text.getD "")))

/-- extractRootCause models `SeiDebugAgent.extractRootCause` of
`src/core/anthropic-client.ts` lines 708–717:
`textContent.match(/root cause[:\s]+([^.]+\.)/i)?.[1]`. -/
def extractRootCause (content : List ContentBlock) : Option String :=
  (firstRootCauseMatch (textOfContent content).data).map String.mk

/-- markerAt models an anchored attempt of the alternation
`(\d+\.|•|\*)`: digits then a period (maximal digit run — a shorter run
is followed by a digit, never a period, so no further backtracking
arises), else a bullet, else an asterisk. Returns (matched marker,
remainder). -/
def markerAt (cs : List Char) : Option (List Char × List Char) :=
  let digits := cs.takeWhile Char.isDigit
  if digits.isEmpty then
    match cs with
    | '•' :: rest => some (['•'], rest)
    | '*' :: rest => some (['*'], rest)
    | _ => none
  else
    match cs.drop digits.length with
    | '.' :: rest => some (digits ++ ['.'], rest)
    | _ =>
      match cs with
      | '•' :: rest => some (['•'], rest)
      | '*' :: rest => some (['*'], rest)
      | _ => none

/-- matchSuggDotTail models an anchored attempt of `([^.\n]+\.)`. -/
def matchSuggDotTail (cs : List Char) : Option (List Char) :=
  let run := cs.takeWhile (fun c => c != '.' && c != '\n')
  if run.isEmpty then none
  else
    match cs.drop run.length with
    | '.' :: _ => some (run ++ ['.'])
    | _ => none

/-- sstarSuggTail models an anchored attempt of `\s*([^.\n]+\.)` with
greedy `\s*`; returns all consumed characters (whitespace plus capture),
as they are part of the full match reported by `String.match(…g)`. -/
def sstarSuggTail : List Char → Option (List Char)
  | [] => none
  | c :: cs =>
    if isJsWhitespace c then
      match sstarSuggTail cs with
      | some r => some (c :: r)
      | none => matchSuggDotTail (c :: cs)
    else matchSuggDotTail (c :: cs)

/-- suggMatchAt models an anchored attempt of the full pattern
`(\d+\.|•|\*)\s*([^.\n]+\.)`, returning (full matched text, remainder of
the input after the match). -/
def suggMatchAt (cs : List Char) : Option (List Char × List Char) :=
  match markerAt cs with
  | none => none
  | some (m, rest) =>
    match sstarSuggTail rest with
    | none => none
    | some consumed => some (m ++ consumed, rest.drop consumed.length)

/-- suggScanGo scans for all non-overlapping matches of the suggestion
pattern left to right (JS global `match`), resuming after each match.
The fuel argument only bounds the recursion: every accepted match
consumes at least its one-character marker, so `fuel = length of the
input` can never be exhausted before the scan finishes. -/
def suggScanGo : Nat → List Char → List (List Char)
  | 0, _ => []
  | _, [] => []
  | fuel + 1, c :: cs =>
    match suggMatchAt (c :: cs) with
    | some (m, rest) => m :: suggScanGo fuel rest
    | none => suggScanGo fuel cs

/-- suggScan models `textContent.match(/(\d+\.|•|\*)\s*([^.\n]+\.)/g)`,
returning the list of full match texts in order. -/
def suggScan (cs : List Char) : List (List Char) :=
  suggScanGo cs.length cs

/-- replaceMarkerOnce models `s.replace(/(\d+\.|•|\*)\s*/, "")`: delete
the first (leftmost) occurrence of a marker and the greedy whitespace run
after it. -/
def replaceMarkerOnce : List Char → List Char
  | [] => []
  | c :: cs =>
    match markerAt (c :: cs) with
    | some (_, rest) => rest.dropWhile isJsWhitespace
    | none => c :: replaceMarkerOnce cs

/-- extractSuggestions models `SeiDebugAgent.extractSuggestions` of
`src/core/anthropic-client.ts` lines 719–728: a JS global match returns
`null` (here `none`) when there is no match, else the list of matches,
each stripped of its leading marker. -/
def extractSuggestions (content : List ContentBlock) : Option (List String) :=
  let ms := suggScan (textOfContent content).data
  if ms.isEmpty then none
  else some (ms.map (fun s => String.mk (replaceMarkerOnce s)))

/-- optCitations models `msg?.citations || []` for an optional message. -/
def optCitations (m : Option AnthropicMessage) : List Citation :=
  match m with
  | none => []
  | some msg => msg.citations.getD []

/-- optTools models `msg?.server_tool_use || []` for an optional message. -/
def optTools (m : Option AnthropicMessage) : List String :=
  match m with
  | none => []
  | some msg => msg.server_tool_use.getD []

/-- jsSetDedupGo walks the list keeping the first occurrence of each
element, accumulating the elements already seen. -/
def jsSetDedupGo (seen : List String) : List String → List String
  | [] => []
  | x :: xs =>
    if x ∈ seen then jsSetDedupGo seen xs
    else x :: jsSetDedupGo (x :: seen) xs

/-- jsSetDedup models `[...new Set(l)]`: deduplication keeping the first
occurrence of each element, in insertion order. -/
def jsSetDedup (l : List String) : List String :=
  jsSetDedupGo [] l

/-- formatDebugReport models `SeiDebugAgent.formatDebugReport` of
`src/core/anthropic-client.ts` lines 680–706: citations are concatenated
(duplicates preserved), tool names pass through `new Set` (deduplicated),
and root cause / suggestions are extracted from the primary report's
content. -/
def formatDebugReport (report : AnthropicMessage)
    (searchResults analysis : Option AnthropicMessage) : DebugReport :=
  let allCitations : List Citation :=
    report.citations.getD [] ++ optCitations searchResults ++ optCitations analysis
  let toolsUsed : List String :=
    report.server_tool_use.getD [] ++ optTools searchResults ++ optTools analysis
  { analysis := report.content
    sources := allCitations
    model := report.model
    toolsUsed := jsSetDedup toolsUsed
    citations := allCitations
    rootCause := extractRootCause report.content
    suggestions := extractSuggestions report.content }

/-- hex64 is a concrete 64-character hexadecimal digit run. -/
def hex64 : List Char := List.replicate 64 'a'

/-- issueHashKeywords is an issue text containing every classifier keyword
together with a 64-hex-digit transaction hash. -/
def issueHashKeywords : String :=
  String.mk ("gas parallel state contract ".data ++ '0' :: 'x' :: hex64)

/-- issueHashOnly is an issue text that is exactly a 64-hex-digit hash. -/
def issueHashOnly : String := String.mk ('0' :: 'x' :: hex64)

/-- issueLongHash is an issue text that is `0x` followed by 65 consecutive
hexadecimal digits (hence no run of exactly 64 digits delimited on both
sides). -/
def issueLongHash : String := String.mk ('0' :: 'x' :: List.replicate 65 'a')

/-- taskZeroTokens is a hand-built descriptor whose `estimatedTokens`
field is present and equal to 0. -/
def taskZeroTokens : DebugTask :=
  { type := TaskType.general
    complexity := Complexity.medium
    data := "test"
    estimatedSearches := some 2
    estimatedTokens := some 0 }

/-- taskPlain is a default descriptor with no flags set. -/
def taskPlain : DebugTask :=
  { type := TaskType.general, complexity := Complexity.medium, data := "test" }

/-- citNonce is a concrete citation. -/
def citNonce : Citation := { url := "https://example.com", title := "Sei docs" }

/-- msgRootCause is a primary model response whose text contains the
root-cause sentence and which carries exactly one citation. -/
def msgRootCause : AnthropicMessage :=
  { content := [{ type := "text", text := some "Root cause: nonce collision. Try X." }]
    model := "claude-opus-4-20250514"
    citations := some [citNonce] }

/-- msgNoText is a model response with no text segments. -/
def msgNoText : AnthropicMessage :=
  { content := [{ type := "tool_use" }], model := "claude-opus-4-20250514" }

/-- msgTools is a model response reporting the `web_search` tool. -/
def msgTools : AnthropicMessage :=
  { content := [], model := "claude-opus-4-20250514"
    server_tool_use := some ["web_search"] }

/-- hasTxHash_of_parts: a text that contains `0x` immediately followed by
64 hexadecimal digits passes the transaction-hash regex test. -/
theorem hasTxHash_of_parts (pre hex post : List Char) (hlen : hex.length = 64)
    (hhex : hex.all isHexDigit = true) :
    hasTxHash (pre ++ '0' :: 'x' :: (hex ++ post)) = true := by
  induction pre with
  | nil =>
    have htake : (hex ++ post).take 64 = hex := by
      rw [← hlen]; exact List.take_left hex post
    simp [hasTxHash, matchHashAt, htake, hlen, hhex]
  | cons c cs ih =>
    simp [hasTxHash, ih]

/-- count_jsSetDedupGo: the accumulator-passing dedup keeps exactly one
occurrence of each element of the input not already seen. -/
theorem count_jsSetDedupGo (x : String) (l : List String) :
    ∀ seen, (jsSetDedupGo seen l).count x = if x ∈ l ∧ x ∉ seen then 1 else 0 := by
  induction l with
  | nil => intro seen; simp [jsSetDedupGo]
  | cons y ys ih =>
    intro seen
    by_cases hy : y ∈ seen
    · rw [show jsSetDedupGo seen (y :: ys) = jsSetDedupGo seen ys by
        simp [jsSetDedupGo, hy]]
      rw [ih seen]
      by_cases hxy : x = y
      · subst hxy; simp [hy]
      · simp [hxy]
    · rw [show jsSetDedupGo seen (y :: ys) = y :: jsSetDedupGo (y :: seen) ys by
        simp [jsSetDedupGo, hy]]
      by_cases hxy : x = y
      · subst hxy
        rw [List.count_cons_self, ih (x :: seen)]
        simp [hy]
      · rw [List.count_cons_of_ne hxy, ih (y :: seen)]
        simp [hxy]

/-- count_jsSetDedup: the spread of a JS `Set` contains each element of
the input exactly once and nothing else. -/
theorem count_jsSetDedup (x : String) (l : List String) :
    (jsSetDedup l).count x = if x ∈ l then 1 else 0 := by
  have h := count_jsSetDedupGo x l []
  simpa [jsSetDedup] using h

/-- C1: selectTier returns the High tier (Opus) exactly when
`needsDeepAnalysis` or `needsCodeExecution` or `complexity == high`
holds; in every other case — simple query, status check, low complexity,
or the default — it returns the Standard tier (Sonnet).  The equivalence
direction from right to left is rule 1 taking precedence over rule 2. -/
theorem claim_selectModel_tier (t : DebugTask) :
    (selectModel t = ModelType.OPUS_4 ↔
      (t.requiresDeepAnalysis = true ∨ t.requiresCodeExecution = true ∨
        t.complexity = Complexity.high)) ∧
    (selectModel t = ModelType.OPUS_4 ∨ selectModel t = ModelType.SONNET_4) := by
  have hne : ModelType.OPUS_4 ≠ ModelType.SONNET_4 := by decide
  have hne' : ModelType.SONNET_4 ≠ ModelType.OPUS_4 := by decide
  cases hd : t.requiresDeepAnalysis <;> cases hc : t.requiresCodeExecution <;>
    cases hx : t.complexity <;>
      simp [selectModel, hd, hc, hx, hne, hne'] <;> decide

/-- claim_selectModel_tier_witness instantiates C1 on a concrete default
descriptor. -/
theorem claim_selectModel_tier_witness :
    selectModel taskPlain = ModelType.OPUS_4 ∨
      selectModel taskPlain = ModelType.SONNET_4 :=
  (claim_selectModel_tier taskPlain).2

/-- C3: for every task descriptor the estimated total is exactly the sum
of search cost and token cost, with no drift. -/
theorem claim_estimateCost_total_additive (t : DebugTask) :
    (estimateCost t).total = (estimateCost t).searchCost + (estimateCost t).tokenCost :=
  rfl

/-- estimateCost_eq restates estimateCost with its let-bindings expanded,
for calculation. -/
theorem estimateCost_eq (t : DebugTask) :
    estimateCost t =
      { searchCost := jsNumOr t.estimatedSearches 0 * (1/100)
        tokenCost := calculateTokenCost (jsNumOr t.estimatedTokens 1000) (selectModel t)
        total := jsNumOr t.estimatedSearches 0 * (1/100)
          + calculateTokenCost (jsNumOr t.estimatedTokens 1000) (selectModel t) } :=
  rfl

/-- claim_tokens_nullish_counterexample refutes C4 as stated: on a
descriptor whose `estimatedTokens` is present and equal to 0, the
estimator does not use 0 tokens — JS `||` treats 0 as falsy and falls
back to 1000, so the token cost is nonzero and the total differs from
the search cost. -/
theorem claim_tokens_nullish_counterexample :
    taskZeroTokens.estimatedTokens = some 0 ∧
    ¬((estimateCost taskZeroTokens).tokenCost = 0) ∧
    ¬((estimateCost taskZeroTokens).total = (estimateCost taskZeroTokens).searchCost) := by
  have hsel : selectModel taskZeroTokens = ModelType.SONNET_4 := by decide
  have hstr : ¬(("claude-sonnet-4-20250514" : String) = "claude-opus-4-20250514") := by
    decide
  refine ⟨rfl, ?_, ?_⟩ <;>
    · rw [estimateCost_eq, hsel]
      simp only [jsNumOr, calculateTokenCost, taskZeroTokens,
        ModelType.SONNET_4, ModelType.OPUS_4, if_neg hstr]
      norm_num

/-- C4 (amended): estimateCost takes tokens = estimatedTokens when that
field is present and nonzero, and falls back to 1000 both when the field
is absent and when it is present with value 0 (JS `||` falsiness). -/
theorem claim_tokens_falsy_fallback (t : DebugTask) :
    ((t.estimatedTokens = none ∨ t.estimatedTokens = some 0) →
      (estimateCost t).tokenCost = calculateTokenCost 1000 (selectModel t)) ∧
    (∀ v : ℚ, t.estimatedTokens = some v → ¬(v = 0) →
      (estimateCost t).tokenCost = calculateTokenCost v (selectModel t)) := by
  constructor
  · rintro (h | h) <;> simp [estimateCost, jsNumOr, h]
  · intro v hv hv0
    simp [estimateCost, jsNumOr, hv, hv0]

/-- claim_tokens_falsy_fallback_witness instantiates the amended C4 at a
descriptor with `estimatedTokens = 0`. -/
theorem claim_tokens_falsy_fallback_witness :
    (estimateCost taskZeroTokens).tokenCost =
      calculateTokenCost 1000 (selectModel taskZeroTokens) :=
  (claim_tokens_falsy_fallback taskZeroTokens).1 (Or.inr rfl)

/-- C5: the input "transaction failed with revert" (which contains no
hash) is classified `general`/`high` with deep analysis required but no
code execution, two searches and 3000 tokens estimated; the selected
tier is High (Opus) and the cost estimate is searchCost 0.02, tokenCost
0.225, total 0.245. -/
theorem claim_scenario_failed_revert :
    (classifyIssue "transaction failed with revert" none).type = TaskType.general ∧
    (classifyIssue "transaction failed with revert" none).complexity = Complexity.high ∧
    (classifyIssue "transaction failed with revert" none).requiresDeepAnalysis = true ∧
    (classifyIssue "transaction failed with revert" none).requiresCodeExecution = false ∧
    (classifyIssue "transaction failed with revert" none).estimatedSearches = some 2 ∧
    (classifyIssue "transaction failed with revert" none).estimatedTokens = some 3000 ∧
    selectModel (classifyIssue "transaction failed with revert" none) = ModelType.OPUS_4 ∧
    estimateCost (classifyIssue "transaction failed with revert" none) =
      { searchCost := 2/100, tokenCost := 225/1000, total := 245/1000 } := by
  have hsel : selectModel (classifyIssue "transaction failed with revert" none) =
      ModelType.OPUS_4 := by decide
  have hsea : (classifyIssue "transaction failed with revert" none).estimatedSearches =
      some 2 := by decide
  have htok : (classifyIssue "transaction failed with revert" none).estimatedTokens =
      some 3000 := by decide
  refine ⟨by decide, by decide, by decide, by decide, hsea, htok, hsel, ?_⟩
  rw [estimateCost_eq, hsel, hsea, htok]
  norm_num [jsNumOr, calculateTokenCost]

/-- C2: every issue text containing `0x` immediately followed by 64
hexadecimal digits is classified with kind `transaction` — regardless of
any other keywords present anywhere in the text — and with an estimated
search count of 3. -/
theorem claim_hash_classifies_transaction (issue : String) (uc : Option String)
    (pre hex post : List Char)
    (hsplit : issue.data = pre ++ '0' :: 'x' :: (hex ++ post))
    (hlen : hex.length = 64) (hhex : hex.all isHexDigit = true) :
    (classifyIssue issue uc).type = TaskType.transaction ∧
    (classifyIssue issue uc).estimatedSearches = some 3 := by
  have htx : hasTxHash issue.data = true := by
    rw [hsplit]; exact hasTxHash_of_parts pre hex post hlen hhex
  constructor <;> simp [classifyIssue, htx]

/-- claim_hash_classifies_transaction_witness instantiates C2 on a text
holding every classifier keyword ("gas", "parallel", "state",
"contract") next to a 64-hex-digit hash. -/
theorem claim_hash_classifies_transaction_witness :
    (classifyIssue issueHashKeywords none).type = TaskType.transaction ∧
    (classifyIssue issueHashKeywords none).estimatedSearches = some 3 :=
  claim_hash_classifies_transaction issueHashKeywords none
    "gas parallel state contract ".data hex64 [] (by decide) (by decide) (by decide)

/-- C6: assembling a report from a primary response whose text contains
"Root cause: nonce collision. Try X." and which carries exactly one
citation yields rootCause "nonce collision." and that citation as the
only source. -/
theorem claim_report_rootcause_roundtrip :
    (formatDebugReport msgRootCause none none).rootCause = some "nonce collision." ∧
    (formatDebugReport msgRootCause none none).sources = [citNonce] := by
  constructor <;> decide

/-- C7: in the assembled report, toolsUsed is the deduplicated union of
the tool lists of the primary response and both optional extra responses
(each tool present exactly once), while the citations and sources lists
are the in-order concatenation of the responses' citation lists with
duplicates preserved. -/
theorem claim_toolsUsed_dedup_citations_concat
    (report : AnthropicMessage) (searchResults analysis : Option AnthropicMessage)
    (tool : String) :
    ((formatDebugReport report searchResults analysis).toolsUsed.count tool =
      if tool ∈ report.server_tool_use.getD [] ++ optTools searchResults
          ++ optTools analysis then 1 else 0) ∧
    (formatDebugReport report searchResults analysis).citations =
      report.citations.getD [] ++ optCitations searchResults ++ optCitations analysis ∧
    (formatDebugReport report searchResults analysis).sources =
      report.citations.getD [] ++ optCitations searchResults ++ optCitations analysis :=
  ⟨count_jsSetDedup tool _, rfl, rfl⟩

/-- claim_toolsUsed_dedup_citations_concat_witness instantiates C7 on a
primary and an extra response both reporting `web_search`: the assembled
report lists it exactly once. -/
theorem claim_toolsUsed_dedup_citations_concat_witness :
    (formatDebugReport msgTools (some msgTools) none).toolsUsed.count "web_search" = 1 := by
  have h := (claim_toolsUsed_dedup_citations_concat msgTools (some msgTools) none
    "web_search").1
  rw [h]
  decide

/-- C8: report assembly is a total function, and when the primary
response has no text segments both rootCause and suggestions are absent
(extraction misses are normal outcomes, not errors). -/
theorem claim_report_empty_segments (report : AnthropicMessage)
    (searchResults analysis : Option AnthropicMessage)
    (h : report.content.filter (fun c => c.type == "text") = []) :
    (formatDebugReport report searchResults analysis).rootCause = none ∧
    (formatDebugReport report searchResults analysis).suggestions = none := by
  have ht : textOfContent report.content = "" := by
    unfold textOfContent
    rw [h]
    rfl
  constructor
  · show extractRootCause report.content = none
    unfold extractRootCause
    rw [ht]
    rfl
  · show extractSuggestions report.content = none
    unfold extractSuggestions
    rw [ht]
    rfl

/-- claim_report_empty_segments_witness instantiates C8 on a response
whose only segment is a non-text block. -/
theorem claim_report_empty_segments_witness :
    (formatDebugReport msgNoText none none).rootCause = none ∧
    (formatDebugReport msgNoText none none).suggestions = none :=
  claim_report_empty_segments msgNoText none none (by decide)

/-- ifChain_ne_transaction: the keyword fallback chain of the classifier
can only produce gas, parallel, contract or general — never transaction. -/
theorem ifChain_ne_transaction (p q r : Prop) [Decidable p] [Decidable q] [Decidable r] :
    (if p then TaskType.gas
     else if q then TaskType.parallel
     else if r then TaskType.contract
     else TaskType.general) ≠ TaskType.transaction := by
  split
  · decide
  · split
    · decide
    · split <;> decide

/-- C9: every classifier-produced descriptor with kind `transaction` has
`needsCodeExecution` set, and is therefore always assigned the High tier
(Opus) by the selector, never the Standard tier. -/
theorem claim_transaction_implies_high_tier (issue : String) (uc : Option String)
    (h : (classifyIssue issue uc).type = TaskType.transaction) :
    (classifyIssue issue uc).requiresCodeExecution = true ∧
    selectModel (classifyIssue issue uc) = ModelType.OPUS_4 ∧
    ¬(selectModel (classifyIssue issue uc) = ModelType.SONNET_4) := by
  cases htx : hasTxHash issue.data with
  | false =>
    exfalso
    simp [classifyIssue, htx] at h
    exact ifChain_ne_transaction _ _ _ h
  | true =>
    have hce : (classifyIssue issue uc).requiresCodeExecution = true := by
      simp [classifyIssue, htx]
    refine ⟨hce, ?_, ?_⟩
    · simp [selectModel, hce]
    · simp [selectModel, hce, ModelType.OPUS_4, ModelType.SONNET_4]

/-- claim_transaction_implies_high_tier_witness instantiates C9 on an
issue text that is exactly a 64-hex-digit hash. -/
theorem claim_transaction_implies_high_tier_witness :
    (classifyIssue issueHashOnly none).requiresCodeExecution = true ∧
    selectModel (classifyIssue issueHashOnly none) = ModelType.OPUS_4 ∧
    ¬(selectModel (classifyIssue issueHashOnly none) = ModelType.SONNET_4) :=
  claim_transaction_implies_high_tier issueHashOnly none (by decide)

/-- C10: the hash detector accepts any occurrence of `0x` followed by at
least 64 hex digits: the input `0x` followed by 65 consecutive `a`
characters (which has no run of exactly 64 digits delimited on both
sides) is still classified as a transaction with 3 estimated searches. -/
theorem claim_overlong_hash_transaction :
    issueLongHash.data = '0' :: 'x' :: List.replicate 65 'a' ∧
    (classifyIssue issueLongHash none).type = TaskType.transaction ∧
    (classifyIssue issueLongHash none).estimatedSearches = some 3 :=
  ⟨rfl, by decide, by decide⟩
